import Mathlib

/-!
Verification of the postgres_mcp repository against its specification.

The file embeds, as pure Lean functions, the tool handlers of
`src/postgres_mcp/server.py` (the database and the MCP transport are
external collaborators; they are modelled as oracles passed in as
arguments, and the side effects the handlers perform on them are recorded
as an explicit event trace).  The specification's SQL Validator and
Database Client live in `postgres_mcp/security.py` and
`postgres_mcp/postgres_client.py`, which are absent from the source tree
(only their tests are present); the query path that is present
(`handle_query`) performs no SQL validation, and the C1-C3 theorems
evaluate it directly to record that divergence.
-/

/-- Python-style whitespace test used by `str.strip` (ASCII subset). -/
def pySpace (c : Char) : Bool :=
  c = ' ' || c = '\t' || c = '\n' || c = '\r' || c = '\x0b' || c = '\x0c'

/-- Embedding of Python `str.strip()`: drop leading and trailing whitespace. -/
def pyStrip (s : String) : String :=
  String.mk (((s.data.dropWhile pySpace).reverse.dropWhile pySpace).reverse)

/-- Embedding of Python `str.upper()` (ASCII letters). -/
def pyUpper (s : String) : String :=
  String.mk (s.data.map Char.toUpper)

/-- `sql.strip().upper().startswith('SELECT')` — the branch test on
line 159 of `server.py`. -/
def isSelect (sql : String) : Bool :=
  "SELECT".data.isPrefixOf (pyUpper (pyStrip sql)).data

/-- Scalar values appearing in result rows (Python side: values already
converted by the driver; `json.dumps(..., default=str)` stringifies the
rest, so a string fallback constructor suffices). -/
inductive PyVal where
  | pnull
  | pbool (b : Bool)
  | pint (n : Int)
  | pstr (s : String)
deriving DecidableEq, Repr

/-- A result row as produced by `RealDictCursor`: an ordered mapping from
column name to value. -/
def Row : Type := List (String × PyVal)

instance : DecidableEq Row := by
  unfold Row
  infer_instance

/-- `mcp.types.TextContent`: the single content-item shape every handler
returns. -/
structure TextContent where
  type : String
  text : String
deriving DecidableEq, Repr

def mkText (t : String) : TextContent := ⟨"text", t⟩

/-- Outcome of one handler invocation: either a normal return of content
items, or an uncaught exception propagating out of the handler. -/
inductive HandlerResult where
  | ok (content : List TextContent)
  | raised (msg : String)
deriving DecidableEq, Repr

/-- Observable actions a handler performs against the database connection;
recorded in order as an event trace. -/
inductive DBEvent where
  | acquire
  | execute (sql : String)
  | fetchall
  | commit
  | close
deriving DecidableEq, Repr

/-- Oracle for the database as seen by `handle_query`: whether
`get_connection` succeeds, and for each statement the rows `fetchall`
would return together with `cursor.rowcount` (or a raised error). -/
structure QueryDB where
  connect : Except String Unit
  run : String → Except String (List Row × Int)

/-- Python dict lookup `arguments.get(k)` over a string-valued argument
mapping. -/
def alistGet (l : List (String × String)) (k : String) : Option String :=
  (l.find? (fun p => p.1 == k)).map Prod.snd

/-- JSON string escaping (backslash and double quote). -/
def jsonEscapeChar (c : Char) : String :=
  if c = '"' then "\\\"" else if c = '\\' then "\\\\" else String.singleton c

def jsonEscape (s : String) : String :=
  String.join (s.data.map jsonEscapeChar)

def jsonStr (s : String) : String :=
  "\"" ++ jsonEscape s ++ "\""

def pyValToJson : PyVal → String
  | .pnull => "null"
  | .pbool true => "true"
  | .pbool false => "false"
  | .pint n => toString n
  | .pstr s => jsonStr s

/-- One row as a JSON object. -/
def rowToJson (r : List (String × PyVal)) : String :=
  "\x7b" ++ String.intercalate ", " (r.map (fun p => jsonStr p.1 ++ ": " ++ pyValToJson p.2)) ++ "\x7d"

/-- `json.dumps(formatted_results, indent=2, default=str)` on the list of
row dictionaries, up to JSON insignificant whitespace (the Python call
pretty-prints with `indent=2`; the claims under verification do not
depend on the whitespace). -/
def jsonDumpsRows (rows : List Row) : String :=
  "[" ++ String.intercalate ", " (rows.map rowToJson) ++ "]"

/-- Embedding of `PostgresMCPServer.handle_query` (`server.py` lines
145–193).  `arguments` is the tool-call argument dict; `db` is the
database oracle.  Returns the handler outcome and the ordered trace of
connection events.  Faithful points: the missing/empty `sql` check
raises *before* the `try` block, so no connection is acquired; every
path inside the `try` ends in the `finally` close; a `get_connection`
failure is caught by the `except` and, since `conn` was never bound,
nothing is closed. -/
def handle_query (arguments : List (String × String)) (db : QueryDB) :
    HandlerResult × List DBEvent :=
  match alistGet arguments "sql" with
  | none => (.raised "SQL query is required", [])
  | some sql =>
    if sql = "" then (.raised "SQL query is required", [])
    else
      match db.connect with
      | .error e => (.ok [mkText ("Error executing query: " ++ e)], [])
      | .ok _ =>
        match db.run sql with
        | .error e => (.ok [mkText ("Error executing query: " ++ e)],
                       [.acquire, .execute sql, .close])
        | .ok (rows, rowcount) =>
          if isSelect sql then
            if rows ≠ [] then
              (.ok [mkText (jsonDumpsRows rows)],
               [.acquire, .execute sql, .fetchall, .close])
            else
              (.ok [mkText "Query executed successfully. No results returned."],
               [.acquire, .execute sql, .fetchall, .close])
          else
            (.ok [mkText ("Query executed successfully. " ++ toString rowcount ++ " rows affected.")],
             [.acquire, .execute sql, .commit, .close])

/-- Catalog query issued by `handle_list_schemas` (`server.py` lines
201–206), whitespace-normalized to one line. -/
def schemataSQL : String :=
  "SELECT schema_name FROM information_schema.schemata WHERE schema_name NOT IN (\x27information_schema\x27, \x27pg_catalog\x27, \x27pg_toast\x27) ORDER BY schema_name"

/-- Oracle for the database as seen by `handle_list_schemas`: the
`schema_name` column of the catalog query result (or a raised error at
the execute/fetch stage). -/
structure SchemasDB where
  connect : Except String Unit
  schemata : Except String (List String)

/-- `json.dumps` of a plain list of strings, up to whitespace. -/
def jsonDumpsStrList (l : List String) : String :=
  "[" ++ String.intercalate ", " (l.map jsonStr) ++ "]"

/-- Embedding of `PostgresMCPServer.handle_list_schemas` (`server.py`
lines 195–224). -/
def handle_list_schemas (db : SchemasDB) : HandlerResult × List DBEvent :=
  match db.connect with
  | .error e => (.ok [mkText ("Error listing schemas: " ++ e)], [])
  | .ok _ =>
    match db.schemata with
    | .error e => (.ok [mkText ("Error listing schemas: " ++ e)],
                   [.acquire, .execute schemataSQL, .close])
    | .ok schemas =>
      (.ok [mkText (jsonDumpsStrList schemas)],
       [.acquire, .execute schemataSQL, .fetchall, .close])

/-- Catalog query issued by `handle_list_tables` (`server.py` lines
234–239), whitespace-normalized to one line. -/
def tablesSQL : String :=
  "SELECT table_name, table_type FROM information_schema.tables WHERE table_schema = %s ORDER BY table_name"

/-- Oracle for `handle_list_tables`: for a schema name, the
(table_name, table_type) rows. -/
structure TablesDB where
  connect : Except String Unit
  tables : String → Except String (List (String × String))

def jsonBool : Bool → String
  | true => "true"
  | false => "false"

/-- One `{"name": ..., "type": ...}` entry of the list_tables payload. -/
def tableEntryToJson (p : String × String) : String :=
  "\x7b" ++ jsonStr "name" ++ ": " ++ jsonStr p.1 ++ ", " ++ jsonStr "type" ++ ": " ++ jsonStr p.2 ++ "\x7d"

def jsonDumpsTables (l : List (String × String)) : String :=
  "[" ++ String.intercalate ", " (l.map tableEntryToJson) ++ "]"

/-- Embedding of `PostgresMCPServer.handle_list_tables` (`server.py`
lines 226–257).  `arguments.get("schema", "public")` supplies the
default schema. -/
def handle_list_tables (arguments : List (String × String)) (db : TablesDB) :
    HandlerResult × List DBEvent :=
  let schema := (alistGet arguments "schema").getD "public"
  match db.connect with
  | .error e => (.ok [mkText ("Error listing tables: " ++ e)], [])
  | .ok _ =>
    match db.tables schema with
    | .error e => (.ok [mkText ("Error listing tables: " ++ e)],
                   [.acquire, .execute tablesSQL, .close])
    | .ok rows =>
      (.ok [mkText (jsonDumpsTables (rows.map (fun r => (r.1, r.2))))],
       [.acquire, .execute tablesSQL, .fetchall, .close])

/-- A row of the columns catalog query in `handle_describe_table`
(`server.py` lines 272–284). -/
structure ColRow where
  column_name : String
  data_type : String
  is_nullable : String
  column_default : Option String
  character_maximum_length : Option Int
  numeric_precision : Option Int
  numeric_scale : Option Int
deriving DecidableEq, Repr

/-- A row of the foreign-key catalog query (`server.py` lines 302–315). -/
structure FkRow where
  column_name : String
  foreign_table_name : String
  foreign_column_name : String
deriving DecidableEq, Repr

/-- One entry of the `columns` list built on `server.py` lines 333–350.
The `max_length` / `precision` / `scale` keys are only present in the
Python dict when the corresponding catalog value is truthy; `none` here
models the absent key. -/
structure ColumnInfo where
  name : String
  type : String
  nullable : Bool
  default : Option String
  is_primary_key : Bool
  max_length : Option Int
  precision : Option Int
  scale : Option Int
deriving DecidableEq, Repr

/-- One entry of the `foreign_keys` list (`server.py` lines 325–330). -/
structure FkInfo where
  column : String
  references : String
deriving DecidableEq, Repr

/-- The `table_info` dict assembled on `server.py` lines 320–350. -/
structure TableInfo where
  schema : String
  table_name : String
  columns : List ColumnInfo
  primary_keys : List String
  foreign_keys : List FkInfo
deriving DecidableEq, Repr

/-- Python truthiness of an optional integer catalog value: `None` and
`0` are falsy (`if col['character_maximum_length']:`). -/
def pyTruthyInt : Option Int → Bool
  | none => false
  | some n => n ≠ 0

/-- The in-memory join of `server.py` lines 319–350: attach
`primary_keys` / `foreign_keys`, compute each column's `is_primary_key`
from the primary-key set, format each foreign key reference as
`"<table>.<column>"`, and keep the columns in the order the catalog
query returned them (it is ordered by `ordinal_position`). -/
def describeTableInfo (schema table_name : String) (cols : List ColRow)
    (pks : List String) (fks : List FkRow) : TableInfo :=
  { schema := schema
    table_name := table_name
    columns := cols.map (fun col =>
      { name := col.column_name
        type := col.data_type
        nullable := col.is_nullable == "YES"
        default := col.column_default
        is_primary_key := pks.contains col.column_name
        max_length := if pyTruthyInt col.character_maximum_length then col.character_maximum_length else none
        precision := if pyTruthyInt col.numeric_precision then col.numeric_precision else none
        scale := if pyTruthyInt col.numeric_scale then col.numeric_scale else none })
    primary_keys := pks
    foreign_keys := fks.map (fun fk =>
      { column := fk.column_name
        references := fk.foreign_table_name ++ "." ++ fk.foreign_column_name }) }

def jsonOptStr : Option String → String
  | none => "null"
  | some s => jsonStr s

/-- Serialize one column entry; optional keys appear only when present. -/
def colInfoToJson (c : ColumnInfo) : String :=
  "\x7b" ++ String.intercalate ", "
    ([jsonStr "name" ++ ": " ++ jsonStr c.name,
      jsonStr "type" ++ ": " ++ jsonStr c.type,
      jsonStr "nullable" ++ ": " ++ jsonBool c.nullable,
      jsonStr "default" ++ ": " ++ jsonOptStr c.default,
      jsonStr "is_primary_key" ++ ": " ++ jsonBool c.is_primary_key]
     ++ (match c.max_length with | none => [] | some n => [jsonStr "max_length" ++ ": " ++ toString n])
     ++ (match c.precision with | none => [] | some n => [jsonStr "precision" ++ ": " ++ toString n])
     ++ (match c.scale with | none => [] | some n => [jsonStr "scale" ++ ": " ++ toString n])) ++ "\x7d"

def fkInfoToJson (f : FkInfo) : String :=
  "\x7b" ++ jsonStr "column" ++ ": " ++ jsonStr f.column ++ ", " ++ jsonStr "references" ++ ": " ++ jsonStr f.references ++ "\x7d"

/-- `json.dumps(table_info, indent=2, default=str)` up to whitespace. -/
def jsonDumpsTableInfo (t : TableInfo) : String :=
  "\x7b" ++ String.intercalate ", "
    [jsonStr "schema" ++ ": " ++ jsonStr t.schema,
     jsonStr "table_name" ++ ": " ++ jsonStr t.table_name,
     jsonStr "columns" ++ ": [" ++ String.intercalate ", " (t.columns.map colInfoToJson) ++ "]",
     jsonStr "primary_keys" ++ ": " ++ jsonDumpsStrList t.primary_keys,
     jsonStr "foreign_keys" ++ ": [" ++ String.intercalate ", " (t.foreign_keys.map fkInfoToJson) ++ "]"] ++ "\x7d"

/-- Columns catalog query (`server.py` lines 272–284), one line. -/
def columnsSQL : String :=
  "SELECT column_name, data_type, is_nullable, column_default, character_maximum_length, numeric_precision, numeric_scale FROM information_schema.columns WHERE table_schema = %s AND table_name = %s ORDER BY ordinal_position"

/-- Primary-key catalog query (`server.py` lines 289–297), one line. -/
def pkSQL : String :=
  "SELECT column_name FROM information_schema.table_constraints tc JOIN information_schema.key_column_usage kcu ON tc.constraint_name = kcu.constraint_name WHERE tc.table_schema = %s AND tc.table_name = %s AND tc.constraint_type = \x27PRIMARY KEY\x27"

/-- Foreign-key catalog query (`server.py` lines 302–315), one line. -/
def fkSQL : String :=
  "SELECT kcu.column_name, ccu.table_name AS foreign_table_name, ccu.column_name AS foreign_column_name FROM information_schema.table_constraints tc JOIN information_schema.key_column_usage kcu ON tc.constraint_name = kcu.constraint_name JOIN information_schema.constraint_column_usage ccu ON ccu.constraint_name = tc.constraint_name WHERE tc.table_schema = %s AND tc.table_name = %s AND tc.constraint_type = \x27FOREIGN KEY\x27"

/-- Oracle for `handle_describe_table`: results of the three catalog
queries for the (schema, table) the handler passes as parameters. -/
structure DescribeDB where
  connect : Except String Unit
  cols : Except String (List ColRow)
  pks : Except String (List String)
  fks : Except String (List FkRow)

/-- Embedding of `PostgresMCPServer.handle_describe_table` (`server.py`
lines 259–365).  The missing/empty `table_name` check raises *before*
the `try` block, so no connection is acquired on that path. -/
def handle_describe_table (arguments : List (String × String)) (db : DescribeDB) :
    HandlerResult × List DBEvent :=
  let schema := (alistGet arguments "schema").getD "public"
  match alistGet arguments "table_name" with
  | none => (.raised "Table name is required", [])
  | some table_name =>
    if table_name = "" then (.raised "Table name is required", [])
    else
      match db.connect with
      | .error e => (.ok [mkText ("Error describing table: " ++ e)], [])
      | .ok _ =>
        match db.cols with
        | .error e => (.ok [mkText ("Error describing table: " ++ e)],
                       [.acquire, .execute columnsSQL, .close])
        | .ok cols =>
          match db.pks with
          | .error e => (.ok [mkText ("Error describing table: " ++ e)],
                         [.acquire, .execute columnsSQL, .fetchall, .execute pkSQL, .close])
          | .ok pks =>
            match db.fks with
            | .error e => (.ok [mkText ("Error describing table: " ++ e)],
                           [.acquire, .execute columnsSQL, .fetchall, .execute pkSQL, .fetchall, .execute fkSQL, .close])
            | .ok fks =>
              (.ok [mkText (jsonDumpsTableInfo (describeTableInfo schema table_name cols pks fks))],
               [.acquire, .execute columnsSQL, .fetchall, .execute pkSQL, .fetchall, .execute fkSQL, .fetchall, .close])

/-- Does `pat` occur as a contiguous sublist of `l`? -/
def containsSub (pat : List Char) : List Char → Bool
  | [] => pat.isEmpty
  | c :: rest => pat.isPrefixOf (c :: rest) || containsSub pat rest

/-- Substring test: does the string `s` contain `pat`? -/
def containsSubstr (s pat : String) : Bool :=
  containsSub pat.data s.data

/-- One property of a tool's JSON-Schema input schema (`server.py`
lines 74–126): its `type`, `description`, and optional `default`. -/
structure PropSchema where
  type : String
  description : String
  default : Option String
deriving DecidableEq, Repr

/-- A tool's `inputSchema` object. -/
structure InputSchema where
  type : String
  properties : List (String × PropSchema)
  required : List String
deriving DecidableEq, Repr

/-- `mcp.types.Tool`: name, description, input schema. -/
structure ToolDef where
  name : String
  description : String
  inputSchema : InputSchema
deriving DecidableEq, Repr

/-- The `query` tool entry (`server.py` lines 71–84). -/
def queryTool : ToolDef :=
  { name := "query"
    description := "Execute a SQL query against the PostgreSQL database"
    inputSchema :=
      { type := "object"
        properties := [("sql", { type := "string", description := "SQL query to execute", default := none })]
        required := ["sql"] } }

/-- The `list_schemas` tool entry (`server.py` lines 85–93). -/
def listSchemasTool : ToolDef :=
  { name := "list_schemas"
    description := "List all schemas in the PostgreSQL database"
    inputSchema := { type := "object", properties := [], required := [] } }

/-- The `list_tables` tool entry (`server.py` lines 94–108). -/
def listTablesTool : ToolDef :=
  { name := "list_tables"
    description := "List all tables in a specific schema"
    inputSchema :=
      { type := "object"
        properties := [("schema", { type := "string", description := "Schema name to list tables from (default: public)", default := some "public" })]
        required := [] } }

/-- The `describe_table` tool entry (`server.py` lines 109–127). -/
def describeTableTool : ToolDef :=
  { name := "describe_table"
    description := "Describe the structure of a table including columns, types, and constraints"
    inputSchema :=
      { type := "object"
        properties :=
          [("table_name", { type := "string", description := "Name of the table to describe", default := none }),
           ("schema", { type := "string", description := "Schema name (default: public)", default := some "public" })]
        required := ["table_name"] } }

/-- Embedding of `handle_list_tools` (`server.py` lines 67–128): the
static tool registry.  The Python handler builds this literal list on
every `tools/list` call from constants only; nothing in the program
mutates it, so in the embedding it is a constant. -/
def handle_list_tools : List ToolDef :=
  [queryTool, listSchemasTool, listTablesTool, describeTableTool]

/-- A value of the `connection_config` dict (`server.py` lines 37–43):
the port is an `int`, everything else a string. -/
inductive ConfigVal where
  | vstr (s : String)
  | vint (n : Int)
deriving DecidableEq, Repr

/-- Embedding of Python `int(s)` on a string: strip whitespace, optional
sign, at least one digit; `none` models the `ValueError` raise. -/
def digitsToNat : List Char → Option Nat
  | [] => none
  | l => l.foldl (fun acc c => match acc with
      | none => none
      | some n => if c.isDigit then some (n * 10 + (c.toNat - 48)) else none)
      (some 0)

def pyIntOfString (s : String) : Option Int :=
  match (pyStrip s).data with
  | '-' :: rest => (digitsToNat rest).map (fun n => -(n : Int))
  | '+' :: rest => (digitsToNat rest).map (fun n => (n : Int))
  | l => (digitsToNat l).map (fun n => (n : Int))

/-- Embedding of `PostgresMCPServer.__init__`'s `connection_config`
(`server.py` lines 37–43), as a function of the process environment.
`none` models `int(os.getenv('POSTGRES_PORT', 5432))` raising
`ValueError` on an unparseable port (the constructor fails).  The dict
is built once in `__init__` and no code of the server mutates it
afterwards. -/
def connection_config (env : String → Option String) :
    Option (List (String × ConfigVal)) :=
  match (match env "POSTGRES_PORT" with
         | none => some (5432 : Int)
         | some s => pyIntOfString s) with
  | none => none
  | some port =>
    some [("host", .vstr ((env "POSTGRES_HOST").getD "localhost")),
          ("port", .vint port),
          ("user", .vstr ((env "POSTGRES_USER").getD "postgres")),
          ("password", .vstr ((env "POSTGRES_PASSWORD").getD "postgres")),
          ("database", .vstr ((env "POSTGRES_DB").getD "postgres"))]

/-- Necessary condition for a string to be a valid JSON text (RFC 8259):
its first non-whitespace character must open one of the six JSON value
forms — an object, array, string, number, or a literal
`true`/`false`/`null`. -/
def jsonLeadOk (s : String) : Bool :=
  match (s.data.dropWhile (fun c => c = ' ' || c = '\t' || c = '\n' || c = '\r')).head? with
  | none => false
  | some c =>
    c = '\x7b' || c = '[' || c = '"' || c = '-' || c = 't' || c = 'f' || c = 'n' || c.isDigit

/-- A concrete query-tool database oracle (used to evaluate the handlers
on concrete inputs). -/
def sampleQueryDB : QueryDB :=
  { connect := .ok ()
    run := fun _ => .ok ([], 0) }

/-- A concrete describe-table database oracle with one primary-key column
and one foreign key. -/
def sampleDescribeDB : DescribeDB :=
  { connect := .ok ()
    cols := .ok
      [{ column_name := "id", data_type := "integer", is_nullable := "NO",
         column_default := none, character_maximum_length := none,
         numeric_precision := some 32, numeric_scale := some 0 },
       { column_name := "customer_id", data_type := "integer", is_nullable := "YES",
         column_default := none, character_maximum_length := none,
         numeric_precision := some 32, numeric_scale := some 0 }]
    pks := .ok ["id"]
    fks := .ok [{ column_name := "customer_id", foreign_table_name := "customers",
                  foreign_column_name := "id" }] }

/-- A concrete oracle whose execution succeeds with `cursor.rowcount = 1`
(what psycopg2 reports after a one-row INSERT). -/
def writeDB : QueryDB :=
  { connect := .ok ()
    run := fun _ => .ok ([], 1) }

/-- A concrete oracle whose execution succeeds with `cursor.rowcount = -1`
(what psycopg2 reports after a DDL statement such as DROP). -/
def ddlDB : QueryDB :=
  { connect := .ok ()
    run := fun _ => .ok ([], -1) }

/-- C1: evaluation of the code at the failing input.  The query tool of
`server.py` has no `allow_write` setting and its `handle_query`
performs no validation: the write statement
`INSERT INTO t (a) VALUES (1)` is sent to the database via
`cursor.execute`, committed, and reported as "1 rows affected" — no
rejection mentioning "not allowed" occurs and the statement is
executed (the repository's own `test_handle_query_with_insert` asserts
the execute and the commit). -/
theorem C1_insert_executed_not_rejected :
    handle_query [("sql", "INSERT INTO t (a) VALUES (1)")] writeDB =
      (.ok [mkText "Query executed successfully. 1 rows affected."],
       [.acquire, .execute "INSERT INTO t (a) VALUES (1)", .commit, .close]) ∧
    DBEvent.execute "INSERT INTO t (a) VALUES (1)"
      ∈ (handle_query [("sql", "INSERT INTO t (a) VALUES (1)")] writeDB).2 ∧
    DBEvent.commit ∈ (handle_query [("sql", "INSERT INTO t (a) VALUES (1)")] writeDB).2 ∧
    containsSubstr "Query executed successfully. 1 rows affected." "not allowed" = false := by
  refine ⟨by decide, by decide, by decide, by decide⟩

/-- C2: evaluation of the code at the failing input.  `handle_query`
executes and commits `DROP TABLE customers` like any other non-SELECT
statement — there is no rejection of DDL as "not allowed" anywhere in
the query path, under any setting (the tool exposes none). -/
theorem C2_drop_executed_not_rejected :
    handle_query [("sql", "DROP TABLE customers")] ddlDB =
      (.ok [mkText "Query executed successfully. -1 rows affected."],
       [.acquire, .execute "DROP TABLE customers", .commit, .close]) ∧
    DBEvent.execute "DROP TABLE customers"
      ∈ (handle_query [("sql", "DROP TABLE customers")] ddlDB).2 ∧
    DBEvent.commit ∈ (handle_query [("sql", "DROP TABLE customers")] ddlDB).2 ∧
    containsSubstr "Query executed successfully. -1 rows affected." "not allowed" = false := by
  refine ⟨by decide, by decide, by decide, by decide⟩

/-- C3: evaluation of the code at the failing input.  The query path of
`server.py` (lines 145–156) contains no SQL validation step:
`SELECT 1; SELECT 2;` goes straight to `cursor.execute` and is never
rejected with "multiple statements" — the handler returns a normal
result whose text does not mention "multiple statements". -/
theorem C3_multi_statement_executed_not_rejected :
    handle_query [("sql", "SELECT 1; SELECT 2;")] sampleQueryDB =
      (.ok [mkText "Query executed successfully. No results returned."],
       [.acquire, .execute "SELECT 1; SELECT 2;", .fetchall, .close]) ∧
    DBEvent.execute "SELECT 1; SELECT 2;"
      ∈ (handle_query [("sql", "SELECT 1; SELECT 2;")] sampleQueryDB).2 ∧
    containsSubstr "Query executed successfully. No results returned." "multiple statements" = false := by
  refine ⟨by decide, by decide, by decide⟩

/-- C4 counterexample: called without the required argument, the handlers
do not return a tool result — they raise (`ValueError` in the source,
lines 148–149 and 264–265), exactly as the repository's own tests
`test_query_without_sql_parameter` and
`test_describe_table_without_table_name` assert. -/
theorem C4_counterexample :
    handle_query [] sampleQueryDB = (.raised "SQL query is required", []) ∧
    handle_describe_table [] sampleDescribeDB = (.raised "Table name is required", []) := by
  constructor <;> rfl

/-- C4 (amended): a tools/call with the required argument missing (or
empty, which Python truthiness treats the same) makes the handler raise
`ValueError` — "SQL query is required" for `query`, "Table name is
required" for `describe_table` — propagating the exception to the MCP
framework instead of returning a tool result, and no database
connection is acquired. -/
theorem C4_missing_argument_raises (args1 args2 : List (String × String))
    (db1 : QueryDB) (db2 : DescribeDB)
    (h1 : alistGet args1 "sql" = none ∨ alistGet args1 "sql" = some "")
    (h2 : alistGet args2 "table_name" = none ∨ alistGet args2 "table_name" = some "") :
    handle_query args1 db1 = (.raised "SQL query is required", []) ∧
    handle_describe_table args2 db2 = (.raised "Table name is required", []) := by
  constructor
  · rcases h1 with h | h <;> simp [handle_query, h]
  · rcases h2 with h | h <;> simp [handle_describe_table, h]

/-- Witness for the amended C4 at empty argument dicts. -/
theorem C4_witness :
    (alistGet [] "sql" = none ∨ alistGet [] "sql" = some "") ∧
    handle_query [] sampleQueryDB = (.raised "SQL query is required", []) ∧
    handle_describe_table [] sampleDescribeDB = (.raised "Table name is required", []) :=
  ⟨Or.inl rfl,
   C4_missing_argument_raises [] [] sampleQueryDB sampleDescribeDB (Or.inl rfl) (Or.inl rfl)⟩

/-- C5: in every invocation of the four tool handlers, whatever the
arguments and whatever the database oracle does, if a connection was
acquired then the last connection event is `close` — the connection is
released on every exit path before the handler returns. -/
theorem C5_connection_released (args1 args2 args3 : List (String × String))
    (db1 : QueryDB) (db2 : SchemasDB) (db3 : TablesDB) (db4 : DescribeDB) :
    (DBEvent.acquire ∈ (handle_query args1 db1).2 →
      (handle_query args1 db1).2.getLast? = some .close) ∧
    (DBEvent.acquire ∈ (handle_list_schemas db2).2 →
      (handle_list_schemas db2).2.getLast? = some .close) ∧
    (DBEvent.acquire ∈ (handle_list_tables args2 db3).2 →
      (handle_list_tables args2 db3).2.getLast? = some .close) ∧
    (DBEvent.acquire ∈ (handle_describe_table args3 db4).2 →
      (handle_describe_table args3 db4).2.getLast? = some .close) := by
  refine ⟨?_, ?_, ?_, ?_⟩
  · cases halist : alistGet args1 "sql" with
    | none => simp [handle_query, halist]
    | some sql =>
      by_cases hsql : sql = ""
      · simp [handle_query, halist, hsql]
      · cases hconn : db1.connect with
        | error e => simp [handle_query, halist, hsql, hconn]
        | ok u =>
          cases hrun : db1.run sql with
          | error e => simp [handle_query, halist, hsql, hconn, hrun]
          | ok pr =>
            obtain ⟨rows, rc⟩ := pr
            by_cases hsel : isSelect sql <;> by_cases hrows : rows = [] <;>
              simp [handle_query, halist, hsql, hconn, hrun, hsel, hrows]
  · cases hconn : db2.connect with
    | error e => simp [handle_list_schemas, hconn]
    | ok u =>
      cases hs : db2.schemata with
      | error e => simp [handle_list_schemas, hconn, hs]
      | ok l => simp [handle_list_schemas, hconn, hs]
  · cases hconn : db3.connect with
    | error e => simp [handle_list_tables, hconn]
    | ok u =>
      cases ht : db3.tables ((alistGet args2 "schema").getD "public") with
      | error e => simp [handle_list_tables, hconn, ht]
      | ok l => simp [handle_list_tables, hconn, ht]
  · cases halist : alistGet args3 "table_name" with
    | none => simp [handle_describe_table, halist]
    | some tn =>
      by_cases htn : tn = ""
      · simp [handle_describe_table, halist, htn]
      · cases hconn : db4.connect with
        | error e => simp [handle_describe_table, halist, htn, hconn]
        | ok u =>
          cases hc : db4.cols with
          | error e => simp [handle_describe_table, halist, htn, hconn, hc]
          | ok cols =>
            cases hp : db4.pks with
            | error e => simp [handle_describe_table, halist, htn, hconn, hc, hp]
            | ok pks =>
              cases hf : db4.fks with
              | error e => simp [handle_describe_table, halist, htn, hconn, hc, hp, hf]
              | ok fks => simp [handle_describe_table, halist, htn, hconn, hc, hp, hf]

/-- Witness for C5 at a concrete successful query invocation. -/
theorem C5_witness :
    DBEvent.acquire ∈ (handle_query [("sql", "SELECT 1")] sampleQueryDB).2 ∧
    (handle_query [("sql", "SELECT 1")] sampleQueryDB).2.getLast? = some .close :=
  ⟨by decide,
   (C5_connection_released [("sql", "SELECT 1")] [] [] sampleQueryDB
      ⟨.ok (), .ok []⟩ ⟨.ok (), fun _ => .ok []⟩ sampleDescribeDB).1 (by decide)⟩

/-- C6: when the sql text does not start with `SELECT` after strip and
uppercase — `WITH ... SELECT` and `EXPLAIN` included — a successful
`handle_query` run never fetches rows: it executes the statement,
commits, and returns the single text item
"Query executed successfully. N rows affected.". -/
theorem C6_non_select_commits (args : List (String × String)) (sql : String)
    (db : QueryDB) (rows : List Row) (rc : Int)
    (h1 : alistGet args "sql" = some sql) (h2 : sql ≠ "") (h3 : isSelect sql = false)
    (h4 : db.connect = .ok ()) (h5 : db.run sql = .ok (rows, rc)) :
    handle_query args db =
      (.ok [mkText ("Query executed successfully. " ++ toString rc ++ " rows affected.")],
       [.acquire, .execute sql, .commit, .close]) ∧
    DBEvent.fetchall ∉ (handle_query args db).2 := by
  have hq : handle_query args db =
      (.ok [mkText ("Query executed successfully. " ++ toString rc ++ " rows affected.")],
       [.acquire, .execute sql, .commit, .close]) := by
    simp [handle_query, h1, h2, h3, h4, h5]
  refine ⟨hq, ?_⟩
  rw [hq]
  simp

/-- Witness for C6 at a `WITH ... SELECT` statement, which the
`startswith('SELECT')` test misclassifies as a non-read. -/
theorem C6_witness :
    alistGet [("sql", "WITH t AS (SELECT 1) SELECT x FROM t")] "sql"
      = some "WITH t AS (SELECT 1) SELECT x FROM t" ∧
    isSelect "WITH t AS (SELECT 1) SELECT x FROM t" = false ∧
    handle_query [("sql", "WITH t AS (SELECT 1) SELECT x FROM t")] sampleQueryDB =
      (.ok [mkText ("Query executed successfully. " ++ toString (0 : Int) ++ " rows affected.")],
       [.acquire, .execute "WITH t AS (SELECT 1) SELECT x FROM t", .commit, .close]) :=
  ⟨by decide, by decide,
   (C6_non_select_commits [("sql", "WITH t AS (SELECT 1) SELECT x FROM t")]
      "WITH t AS (SELECT 1) SELECT x FROM t" sampleQueryDB [] 0
      (by decide) (by decide) (by decide) rfl rfl).1⟩

/-- C7: on a successful `describe_table` run the handler returns the
serialized join of the three catalog queries, in which every column
record's `is_primary_key` is true exactly when its name is in the
primary-key set, the top-level `primary_keys` and `foreign_keys` lists
are attached with each foreign key formatted as
`column` / `"<table>.<column>"`, and the column records keep the
catalog's ordinal-position order. -/
theorem C7_describe_table_shape (args : List (String × String)) (tname schema : String)
    (db : DescribeDB) (cols : List ColRow) (pks : List String) (fks : List FkRow)
    (h1 : alistGet args "table_name" = some tname) (h2 : tname ≠ "")
    (hsch : (alistGet args "schema").getD "public" = schema)
    (hc : db.connect = .ok ()) (hcols : db.cols = .ok cols)
    (hpks : db.pks = .ok pks) (hfks : db.fks = .ok fks) :
    handle_describe_table args db =
      (.ok [mkText (jsonDumpsTableInfo (describeTableInfo schema tname cols pks fks))],
       [.acquire, .execute columnsSQL, .fetchall, .execute pkSQL, .fetchall,
        .execute fkSQL, .fetchall, .close]) ∧
    (∀ c ∈ (describeTableInfo schema tname cols pks fks).columns,
      (c.is_primary_key = true ↔ c.name ∈ pks)) ∧
    (describeTableInfo schema tname cols pks fks).primary_keys = pks ∧
    (describeTableInfo schema tname cols pks fks).foreign_keys =
      fks.map (fun fk => { column := fk.column_name,
                           references := fk.foreign_table_name ++ "." ++ fk.foreign_column_name }) ∧
    (describeTableInfo schema tname cols pks fks).columns.map ColumnInfo.name =
      cols.map ColRow.column_name := by
  refine ⟨?_, ?_, rfl, rfl, ?_⟩
  · simp [handle_describe_table, h1, h2, hsch, hc, hcols, hpks, hfks]
  · intro c hcmem
    simp only [describeTableInfo, List.mem_map] at hcmem
    obtain ⟨col, hcol, rfl⟩ := hcmem
    simp [List.elem_iff]
  · simp [describeTableInfo, List.map_map]

/-- Witness for C7 at a table with one primary-key column and one
foreign key. -/
theorem C7_witness :
    handle_describe_table [("table_name", "orders")] sampleDescribeDB =
      (.ok [mkText (jsonDumpsTableInfo (describeTableInfo "public" "orders"
        [{ column_name := "id", data_type := "integer", is_nullable := "NO",
           column_default := none, character_maximum_length := none,
           numeric_precision := some 32, numeric_scale := some 0 },
         { column_name := "customer_id", data_type := "integer", is_nullable := "YES",
           column_default := none, character_maximum_length := none,
           numeric_precision := some 32, numeric_scale := some 0 }]
        ["id"]
        [{ column_name := "customer_id", foreign_table_name := "customers",
           foreign_column_name := "id" }]))],
       [.acquire, .execute columnsSQL, .fetchall, .execute pkSQL, .fetchall,
        .execute fkSQL, .fetchall, .close]) :=
  (C7_describe_table_shape [("table_name", "orders")] "orders" "public" sampleDescribeDB
    _ _ _ (by decide) (by decide) rfl rfl rfl rfl rfl).1

/-- C8: the tool registry is the constant four-entry list
`query`, `list_schemas`, `list_tables`, `describe_table`; the `query`
tool's input schema declares `sql` as a required string parameter; and
every `schema` property any tool declares is optional (not required)
with type string and default "public". -/
theorem C8_registry_static (t : ToolDef) (ht : t ∈ handle_list_tools) :
    handle_list_tools.map ToolDef.name = ["query", "list_schemas", "list_tables", "describe_table"] ∧
    4 ≤ handle_list_tools.length ∧
    (t.name = "query" →
      ("sql", { type := "string", description := "SQL query to execute", default := none })
        ∈ t.inputSchema.properties ∧ "sql" ∈ t.inputSchema.required) ∧
    (∀ p ∈ t.inputSchema.properties, p.1 = "schema" →
      p.2.type = "string" ∧ p.2.default = some "public" ∧ p.1 ∉ t.inputSchema.required) := by
  refine ⟨by decide, by decide, ?_, ?_⟩ <;>
    · fin_cases ht <;> decide

/-- Witness for C8 at the `list_tables` registry entry. -/
theorem C8_witness :
    listTablesTool ∈ handle_list_tools ∧
    handle_list_tools.map ToolDef.name = ["query", "list_schemas", "list_tables", "describe_table"] ∧
    (∀ p ∈ listTablesTool.inputSchema.properties, p.1 = "schema" →
      p.2.type = "string" ∧ p.2.default = some "public" ∧ p.1 ∉ listTablesTool.inputSchema.required) :=
  ⟨by decide,
   (C8_registry_static listTablesTool (by decide)).1,
   (C8_registry_static listTablesTool (by decide)).2.2.2⟩

/-- C9 counterexample: with an empty environment the loaded configuration
has exactly the keys host, port, user, password, database — there is no
`sslmode` and no `statement_timeout` entry (`server.py` lines 37–43). -/
theorem C9_counterexample :
    connection_config (fun _ => none) =
      some [("host", .vstr "localhost"), ("port", .vint 5432), ("user", .vstr "postgres"),
            ("password", .vstr "postgres"), ("database", .vstr "postgres")] ∧
    (connection_config (fun _ => none)).map (fun l => l.map Prod.fst) =
      some ["host", "port", "user", "password", "database"] ∧
    "sslmode" ∉ ["host", "port", "user", "password", "database"] ∧
    "statement_timeout" ∉ ["host", "port", "user", "password", "database"] := by
  refine ⟨rfl, rfl, by decide, by decide⟩

/-- C9 (amended): the configuration loaded once at startup consists of
exactly host, port, user, password, and database, each falling back to
its documented default (`localhost`, `5432`, `postgres`, `postgres`,
`postgres`) when the environment variable is unset; there are no
`sslmode` or `statement_timeout` fields. -/
theorem C9_config_five_fields (env : String → Option String) (l : List (String × ConfigVal))
    (h : connection_config env = some l) :
    l.map Prod.fst = ["host", "port", "user", "password", "database"] ∧
    (env "POSTGRES_HOST" = none → ("host", .vstr "localhost") ∈ l) ∧
    (env "POSTGRES_PORT" = none → ("port", .vint 5432) ∈ l) ∧
    (env "POSTGRES_USER" = none → ("user", .vstr "postgres") ∈ l) ∧
    (env "POSTGRES_PASSWORD" = none → ("password", .vstr "postgres") ∈ l) ∧
    (env "POSTGRES_DB" = none → ("database", .vstr "postgres") ∈ l) := by
  unfold connection_config at h
  rcases hp : (match env "POSTGRES_PORT" with
               | none => some (5432 : Int)
               | some s => pyIntOfString s) with _ | port
  · rw [hp] at h
    exact absurd h (by simp)
  · rw [hp] at h
    simp only [Option.some.injEq] at h
    subst h
    refine ⟨rfl, ?_, ?_, ?_, ?_, ?_⟩
    · intro he; simp [he]
    · intro he; rw [he] at hp; simp at hp; simp [hp]
    · intro he; simp [he]
    · intro he; simp [he]
    · intro he; simp [he]

/-- Witness for the amended C9 at the empty environment. -/
theorem C9_witness :
    connection_config (fun _ => none) =
      some [("host", .vstr "localhost"), ("port", .vint 5432), ("user", .vstr "postgres"),
            ("password", .vstr "postgres"), ("database", .vstr "postgres")] ∧
    [("host", ConfigVal.vstr "localhost"), ("port", .vint 5432), ("user", .vstr "postgres"),
     ("password", .vstr "postgres"), ("database", .vstr "postgres")].map Prod.fst =
      ["host", "port", "user", "password", "database"] :=
  ⟨rfl,
   (C9_config_five_fields (fun _ => none)
     [("host", .vstr "localhost"), ("port", .vint 5432), ("user", .vstr "postgres"),
      ("password", .vstr "postgres"), ("database", .vstr "postgres")] rfl).1⟩

/-- C10: a SELECT whose execution returns zero rows yields the fixed
text "Query executed successfully. No results returned." rather than a
serialized empty list, and that text is not JSON-decodable (its first
non-whitespace character opens no JSON value form). -/
theorem C10_empty_select_fixed_text (args : List (String × String)) (sql : String)
    (db : QueryDB) (rc : Int)
    (h1 : alistGet args "sql" = some sql) (h2 : sql ≠ "") (h3 : isSelect sql = true)
    (h4 : db.connect = .ok ()) (h5 : db.run sql = .ok ([], rc)) :
    handle_query args db =
      (.ok [mkText "Query executed successfully. No results returned."],
       [.acquire, .execute sql, .fetchall, .close]) ∧
    jsonLeadOk "Query executed successfully. No results returned." = false ∧
    "Query executed successfully. No results returned." ≠ jsonDumpsRows [] := by
  refine ⟨?_, by decide, by decide⟩
  simp [handle_query, h1, h2, h3, h4, h5]

/-- Witness for C10 at `SELECT 1` over an empty result set. -/
theorem C10_witness :
    isSelect "SELECT 1" = true ∧
    handle_query [("sql", "SELECT 1")] sampleQueryDB =
      (.ok [mkText "Query executed successfully. No results returned."],
       [.acquire, .execute "SELECT 1", .fetchall, .close]) ∧
    jsonLeadOk "Query executed successfully. No results returned." = false :=
  ⟨by decide,
   (C10_empty_select_fixed_text [("sql", "SELECT 1")] "SELECT 1" sampleQueryDB 0
      (by decide) (by decide) (by decide) rfl rfl).1,
   (C10_empty_select_fixed_text [("sql", "SELECT 1")] "SELECT 1" sampleQueryDB 0
      (by decide) (by decide) (by decide) rfl rfl).2.1⟩
